import Mathlib

/-
  Verification of the presemulator slide-assembly logic.

  The definitions below are a shallow embedding of `src/app.py` (the
  functions `deep_copy_slide_content`, `copy_slide_background`,
  `populate_slide`, `find_slide_by_ai` and the module-level assembly
  flow) and of `src/conversion_service.py` (the per-slide/per-page text
  extraction).  Geometry values are EMU integers (python-pptx `Pt(n)`
  is `n * 12700` EMU).  Python exceptions are modelled with `Except`
  where the source lets them propagate, and with the explicit fallback
  value where the source catches them.
-/

namespace Presemulator

/-- EMU value of python-pptx `Pt n` (1 pt = 12700 EMU). -/
def ptEmu (n : Nat) : Int := (n : Int) * 12700

/-- Font attributes carried by a run (`run.font` in python-pptx).
`none` is python-pptx's `None`/inherit default. -/
structure RunFont where
  bold : Option Bool := none
  italic : Option Bool := none
  underline : Option Bool := none
  size : Option Nat := none
  solidRgb : Option (Nat × Nat × Nat) := none
  deriving DecidableEq, Repr

/-- The font of a freshly created run (`p.add_run()`): everything inherited. -/
def defaultFont : RunFont := {}

/-- A text run. -/
structure Run where
  text : String
  font : RunFont
  deriving DecidableEq, Repr

/-- A paragraph: alignment, indent level and runs. -/
structure Paragraph where
  alignment : Option Nat := none
  level : Nat := 0
  runs : List Run := []
  deriving DecidableEq, Repr

/-- The single empty paragraph a fresh text box starts with. -/
def emptyParagraph : Paragraph := {}

/-- A text frame: paragraphs plus word-wrap and margins
(python-pptx defaults: 0.1 inch left/right, 0.05 inch top/bottom). -/
structure TextFrame where
  paragraphs : List Paragraph := [emptyParagraph]
  wordWrap : Option Bool := none
  marginLeft : Int := 91440
  marginRight : Int := 91440
  marginTop : Int := 45720
  marginBottom : Int := 45720
  deriving DecidableEq, Repr

/-- Text of a paragraph: concatenation of its runs' text. -/
def Paragraph.text (p : Paragraph) : String := String.join (p.runs.map Run.text)

/-- Text of a text frame: paragraph texts joined by newline
(python-pptx `TextFrame.text`). -/
def TextFrame.text (tf : TextFrame) : String :=
  String.intercalate "\n" (tf.paragraphs.map Paragraph.text)

/-- Shape content, by kind.

* `picture`: holds the relationship id (`r:embed`) pointing into the
  owning slide part's relationships.
* `text`: holds the text frame; `corrupt = true` models a source whose
  content raises when read (the failure mode of section 7 of the spec).
* `other`: autoshape/group/table/chart, treated by the source as an
  opaque XML element; `embeddedRelIds` are the relationship ids that
  appear inside that opaque content, `payload` identifies the rest of
  the element. -/
inductive ShapeKind where
  | picture (relId : String)
  | text (corrupt : Bool) (tf : TextFrame)
  | other (embeddedRelIds : List String) (payload : Nat)
  deriving DecidableEq, Repr

/-- A shape: geometry, placeholder metadata and kind-specific content. -/
structure Shape where
  left : Int := 0
  top : Int := 0
  width : Int := 0
  height : Int := 0
  isPlaceholder : Bool := false
  phType : Option Nat := none
  kind : ShapeKind
  deriving DecidableEq, Repr

/-- `shape.has_text_frame`. -/
def Shape.hasTextFrame (s : Shape) : Bool :=
  match s.kind with
  | .text _ _ => true
  | _ => false

/-- `shape.text` (empty for non-text shapes). -/
def Shape.text (s : Shape) : String :=
  match s.kind with
  | .text _ tf => tf.text
  | _ => ""

/-- All runs of a shape, in order, flattened across paragraphs. -/
def Shape.allRuns (s : Shape) : List Run :=
  match s.kind with
  | .text _ tf => (tf.paragraphs.map Paragraph.runs).flatten
  | _ => []

/-- Slide background fill: a picture fill carrying an optional
`r:embed` relationship id, or any other (solid/gradient) fill. -/
inductive BgFill where
  | blip (embed : Option String)
  | plain (payload : Nat)
  deriving DecidableEq, Repr

/-- A relationship of a slide part: local id and target part name. -/
structure Rel where
  rId : String
  target : String
  deriving DecidableEq, Repr

/-- A slide part: shapes in z-order, optional background,
and the part's outgoing relationships. -/
structure Slide where
  shapes : List Shape := []
  background : Option BgFill := none
  rels : List Rel := []
  deriving DecidableEq, Repr

/-- An image part of a package. -/
structure ImagePart where
  name : String
  blob : List Nat
  contentType : String
  deriving DecidableEq, Repr

/-- The package-level state a slide's relationships resolve against:
the image parts present in the package. -/
structure Package where
  images : List ImagePart
  deriving DecidableEq, Repr

/-- Resolve a relationship id of a slide part to an image part of its
package (`src_slide.part.related_part(rId)` followed by `.blob`);
`none` models the lookup raising. -/
def relatedImage (pkg : Package) (slide : Slide) (rid : String) : Option ImagePart :=
  match slide.rels.find? (fun r => r.rId == rid) with
  | some r => pkg.images.find? (fun p => p.name == r.target)
  | none => none

/-- First unused relationship id of the form `rIdN` (python-pptx
`_next_rId`); by counting, one of the first `rels.length + 1`
candidates is free. -/
def nextRId (rels : List Rel) : String :=
  let used := fun c => rels.any (fun r => r.rId == c)
  let cands := (List.range (rels.length + 1)).map (fun k => "rId" ++ toString (k + 1))
  (cands.find? (fun c => !(used c))).getD ("rId" ++ toString (rels.length + 1))

/-- `part.get_or_add_image_part(blob, content_type)`: reuse an image
part with identical bytes, else append a fresh one.  Returns the new
image list and the part name. -/
def getOrAddImagePart (imgs : List ImagePart) (blob : List Nat) (ct : String) :
    List ImagePart × String :=
  match imgs.find? (fun p => p.blob == blob) with
  | some p => (imgs, p.name)
  | none =>
    let nm := "image" ++ toString (imgs.length + 1)
    (imgs ++ [⟨nm, blob, ct⟩], nm)

/-- `part.relate_to(target, reltype)`: reuse an existing relationship
to the same target, else append one under a fresh id.  Returns the new
relationship list and the id. -/
def relateTo (rels : List Rel) (target : String) : List Rel × String :=
  match rels.find? (fun r => r.target == target) with
  | some r => (rels, r.rId)
  | none =>
    let rid := nextRId rels
    (rels ++ [⟨rid, target⟩], rid)

/-- Destination-side state threaded through a clone: the destination
package's image parts and the destination slide part's relationships. -/
structure CopyState where
  images : List ImagePart
  rels : List Rel
  deriving DecidableEq, Repr

/-- Copy of one run inside `deep_copy_slide_content` (text, bold,
italic, underline, size when set, and the solid fill colour when the
fill is solid). -/
def copyRun (r : Run) : Run :=
  { text := r.text
    font :=
      { bold := r.font.bold
        italic := r.font.italic
        underline := r.font.underline
        size := r.font.size
        solidRgb := r.font.solidRgb } }

/-- Copy of one paragraph inside `deep_copy_slide_content`
(alignment, level and runs). -/
def copyParagraph (p : Paragraph) : Paragraph :=
  { alignment := p.alignment
    level := p.level
    runs := p.runs.map copyRun }

/-- The text frame produced for a text-bearing shape by
`deep_copy_slide_content`: `add_textbox` creates a frame holding one
empty paragraph, `clear()` keeps that single empty paragraph, and each
source paragraph is then appended with `add_paragraph()` — so the copy
carries one extra leading empty paragraph.  Word wrap and margins are
copied from the source frame. -/
def copyTextFrame (tf : TextFrame) : TextFrame :=
  { paragraphs := emptyParagraph :: tf.paragraphs.map copyParagraph
    wordWrap := tf.wordWrap
    marginLeft := tf.marginLeft
    marginRight := tf.marginRight
    marginTop := tf.marginTop
    marginBottom := tf.marginBottom }

/-- The shape created by `dest_slide.shapes.add_textbox(...)` plus the
paragraph loop: same geometry, not a placeholder. -/
def copyTextShape (s : Shape) (tf : TextFrame) : Shape :=
  { left := s.left, top := s.top, width := s.width, height := s.height
    isPlaceholder := false, phType := none
    kind := .text false (copyTextFrame tf) }

/-- The shape created by `dest_slide.shapes.add_picture(...)`: same
geometry, referencing the freshly created destination relationship. -/
def addPictureShape (s : Shape) (rid : String) : Shape :=
  { left := s.left, top := s.top, width := s.width, height := s.height
    isPlaceholder := false, phType := none
    kind := .picture rid }

/-- The shape loop of `deep_copy_slide_content` (src/app.py lines
196-250), processing source shapes in document order:

* picture: fetch the image blob through the source relationship graph;
  on success insert/reuse a destination image part, relate the
  destination slide to it and append a picture shape; on failure
  (unresolvable source relationship) print a warning and either copy
  the element verbatim (placeholder) or skip the shape;
* text-bearing shape: rebuild the text box; the source gives this
  branch no exception handler, so a failure while reading the source
  shape propagates and aborts the whole clone;
* other: `copy.deepcopy(shape.element)`, i.e. the shape — including any
  relationship ids embedded in it — is appended verbatim. -/
def deepCopyShapes (srcPkg : Package) (srcSlide : Slide) :
    List Shape → CopyState → Except String (CopyState × List Shape)
  | [], st => .ok (st, [])
  | s :: rest, st =>
    match s.kind with
    | .picture rid =>
      match relatedImage srcPkg srcSlide rid with
      | some img =>
        let (imgs, nm) := getOrAddImagePart st.images img.blob img.contentType
        let (rels, newRid) := relateTo st.rels nm
        match deepCopyShapes srcPkg srcSlide rest ⟨imgs, rels⟩ with
        | .ok (st2, out) => .ok (st2, addPictureShape s newRid :: out)
        | .error e => .error e
      | none =>
        if s.isPlaceholder then
          match deepCopyShapes srcPkg srcSlide rest st with
          | .ok (st2, out) => .ok (st2, s :: out)
          | .error e => .error e
        else
          deepCopyShapes srcPkg srcSlide rest st
    | .text corrupt tf =>
      if corrupt then .error "corrupt text shape"
      else
        match deepCopyShapes srcPkg srcSlide rest st with
        | .ok (st2, out) => .ok (st2, copyTextShape s tf :: out)
        | .error e => .error e
    | .other _ _ =>
      match deepCopyShapes srcPkg srcSlide rest st with
      | .ok (st2, out) => .ok (st2, s :: out)
      | .error e => .error e

/-- `copy_slide_background` (src/app.py lines 123-184): a source
picture background is re-embedded through a fresh destination
relationship; when that fails the `except` branch falls back to a
verbatim copy of the background properties (keeping the source
relationship id); a solid/gradient background is copied verbatim; a
picture fill without an embed id, or an absent source background,
leaves the destination background untouched. -/
def copySlideBackground (srcPkg : Package) (src : Slide) (destBg : Option BgFill)
    (st : CopyState) : CopyState × Option BgFill :=
  match src.background with
  | none => (st, destBg)
  | some (.blip (some rid)) =>
    match relatedImage srcPkg src rid with
    | some img =>
      let (imgs, nm) := getOrAddImagePart st.images img.blob img.contentType
      let (rels, newRid) := relateTo st.rels nm
      (⟨imgs, rels⟩, some (.blip (some newRid)))
    | none => (st, some (.blip (some rid)))
  | some (.blip none) => (st, destBg)
  | some (.plain p) => (st, some (.plain p))

/-- `deep_copy_slide_content(dest_slide, src_slide)` (src/app.py lines
187-252): first every shape already on the destination slide is
removed, then the source shapes are copied in order, then the
background is copied.  The destination slide's relationship list is
kept and only extended. -/
def deepCopySlideContent (srcPkg : Package) (destImages : List ImagePart)
    (dest src : Slide) : Except String (List ImagePart × Slide) :=
  match deepCopyShapes srcPkg src src.shapes ⟨destImages, dest.rels⟩ with
  | .error e => .error e
  | .ok (st, shapes) =>
    let stbg := copySlideBackground srcPkg src dest.background st
    .ok (stbg.1.images, { shapes := shapes, background := stbg.2, rels := stbg.1.rels })

/-- Relationship ids referenced from inside a shape's content. -/
def Shape.referencedRelIds (s : Shape) : List String :=
  match s.kind with
  | .picture rid => [rid]
  | .text _ _ => []
  | .other ids _ => ids

/-- All relationship ids referenced from a slide's serialized content
(shapes plus a picture background). -/
def Slide.referencedRelIds (sl : Slide) : List String :=
  (sl.shapes.map Shape.referencedRelIds).flatten ++
    (match sl.background with
     | some (.blip (some r)) => [r]
     | _ => [])

/-- Whether a relationship id resolves against the slide part's
relationship list. -/
def Slide.resolves (sl : Slide) (rid : String) : Bool :=
  sl.rels.any (fun r => r.rId == rid)

/-- The embedded relationship ids of a shape when it is opaque. -/
def shapeOtherIds (s : Shape) : Option (List String) :=
  match s.kind with
  | .other ids _ => some ids
  | _ => none

/-- Embedded relationship ids of the opaque (`other`) shapes of a
shape list, in order. -/
def otherEmbedded (shapes : List Shape) : List (List String) :=
  shapes.filterMap shapeOtherIds

/-- A shape whose unguarded copy cannot raise: every text-bearing shape
must be readable (pictures are guarded by try/except in the source). -/
def textCopyOk (s : Shape) : Bool :=
  match s.kind with
  | .text corrupt _ => !corrupt
  | _ => true

/-- A picture shape the source's except-branch drops entirely: its
image cannot be resolved and it is not a placeholder. -/
def pictureSkipped (srcPkg : Package) (srcSlide : Slide) (s : Shape) : Bool :=
  match s.kind with
  | .picture rid => (relatedImage srcPkg srcSlide rid).isNone && !s.isPlaceholder
  | _ => false

/-! ## populate_slide (src/app.py lines 462-503) -/

/-- `is_title_placeholder`: placeholder whose `placeholder_format.type`
is 1, 2 or 8. -/
def isTitlePlaceholder (s : Shape) : Bool :=
  s.isPlaceholder && (s.phType == some 1 || s.phType == some 2 || s.phType == some 8)

/-- `is_top_text_box`: `shape.top < Pt(150)`. -/
def isTopTextBox (s : Shape) : Bool :=
  s.top < ptEmu 150

/-- The title condition of the loop body:
`is_title_placeholder or is_top_text_box`. -/
def titleCond (s : Shape) : Bool :=
  isTitlePlaceholder s || isTopTextBox s

/-- `is_body_placeholder`: placeholder whose `placeholder_format.type`
is 3, 4, 8 or 14.  Note that type 8 also satisfies the title test. -/
def isBodyPlaceholder (s : Shape) : Bool :=
  s.isPlaceholder &&
    (s.phType == some 3 || s.phType == some 4 || s.phType == some 8 || s.phType == some 14)

/-- Prefix test on character lists. -/
def charsPrefix : List Char → List Char → Bool
  | [], _ => true
  | _ :: _, [] => false
  | p :: ps, c :: cs => p == c && charsPrefix ps cs

/-- Substring occurrence test on character lists. -/
def charsContains (pat : List Char) : List Char → Bool
  | [] => pat.isEmpty
  | c :: cs => charsPrefix pat (c :: cs) || charsContains pat cs

/-- Python `pat in s`. -/
def containsSubstring (s pat : String) : Bool :=
  charsContains pat.toList s.toList

/-- Python `s.lower()`. -/
def strLower (s : String) : String :=
  ⟨s.toList.map Char.toLower⟩

/-- `is_lorem_ipsum`: `"lorem ipsum" in shape.text.lower()`. -/
def isLoremIpsum (s : Shape) : Bool :=
  containsSubstring (strLower s.text) "lorem ipsum"

/-- A character Python `str.strip()` removes. -/
def isPySpace (c : Char) : Bool :=
  c == ' ' || c == '\t' || c == '\n' || c == '\r' || c == '\x0b' || c == '\x0c'

/-- Python `not s.strip()`: the string is all whitespace. -/
def isBlankStr (s : String) : Bool :=
  s.toList.all isPySpace

/-- `is_empty_text_box`: blank text (`not shape.text.strip()`) and
`shape.height > Pt(100)`. -/
def isEmptyTextBox (s : Shape) : Bool :=
  isBlankStr s.text && s.height > ptEmu 100

/-- The body condition of the loop body:
`is_body_placeholder or is_lorem_ipsum or is_empty_text_box`.
It is evaluated on the shape as it stands after a possible title
write in the same iteration. -/
def bodyCond (s : Shape) : Bool :=
  isBodyPlaceholder s || isLoremIpsum s || isEmptyTextBox s

/-- `tf.clear()` on a paragraph: content removed, properties kept. -/
def clearParagraph (p : Paragraph) : Paragraph :=
  { p with runs := [] }

/-- `TextFrame.clear()`: all paragraphs but the first are dropped and
the first is emptied; word wrap and margins are untouched. -/
def clearTextFrame (tf : TextFrame) : TextFrame :=
  { tf with paragraphs := [clearParagraph (tf.paragraphs.headD emptyParagraph)] }

/-- The write performed for a resolved role:
`tf.clear(); p = tf.add_paragraph(); run = p.add_run(); run.text = txt`.
The new run carries the library-default font — no formatting is
captured from the pristine shape or reapplied. -/
def writeTextFrame (tf : TextFrame) (txt : String) : TextFrame :=
  let cleared := clearTextFrame tf
  { cleared with
      paragraphs :=
        cleared.paragraphs ++
          [{ alignment := none, level := 0, runs := [{ text := txt, font := defaultFont }] }] }

/-- The role write lifted to a shape (non-text shapes are untouched;
the loop never reaches them anyway). -/
def Shape.writeText (s : Shape) (txt : String) : Shape :=
  match s.kind with
  | .text corrupt tf => { s with kind := .text corrupt (writeTextFrame tf txt) }
  | _ => s

/-- Result of `populate_slide`: the transformed shapes together with
the index of the shape the title text was written into and the index
the body text was written into (absolute positions in the shape
list). -/
structure PopulateResult where
  shapes : List Shape
  titleIdx : Option Nat
  bodyIdx : Option Nat
  deriving DecidableEq, Repr

/-- The loop of `populate_slide`: shapes are visited in document
order; a shape without a text frame is skipped; the title is written
into the first shape satisfying the title condition, the body into the
first shape satisfying the body condition (evaluated after a possible
title write into the same shape); once both are written the loop
breaks and the remaining shapes are left untouched. -/
def populateGo (title body : String) :
    List Shape → Nat → Option Nat → Option Nat → PopulateResult
  | [], _, t, b => ⟨[], t, b⟩
  | s :: rest, n, t, b =>
    match s.kind with
    | .text _ _ =>
      let doTitle := t.isNone && titleCond s
      let s1 := if doTitle then s.writeText title else s
      let t1 := if doTitle then some n else t
      let doBody := b.isNone && bodyCond s1
      let s2 := if doBody then s1.writeText body else s1
      let b1 := if doBody then some n else b
      if t1.isSome && b1.isSome then ⟨s2 :: rest, t1, b1⟩
      else
        let r := populateGo title body rest (n + 1) t1 b1
        ⟨s2 :: r.shapes, r.titleIdx, r.bodyIdx⟩
    | _ =>
      let r := populateGo title body rest (n + 1) t b
      ⟨s :: r.shapes, r.titleIdx, r.bodyIdx⟩

/-- `populate_slide(slide, content)` with
`content = {title := title, body := body}`. -/
def populateSlide (sl : Slide) (title body : String) : PopulateResult :=
  populateGo title body sl.shapes 0 none none

/-- A shape that matches the title condition and, once the title text
has been written into it, also a body condition — exactly the shapes
`populate_slide` writes both texts into. -/
def doubleRole (title : String) (s : Shape) : Bool :=
  titleCond s && bodyCond (s.writeText title)

/-- Index of the first shape the loop would give the title to: the
first shape, in document order, that has a text frame and satisfies
the title condition. -/
def firstTitleIdx : List Shape → Option Nat
  | [] => none
  | s :: rest =>
    if s.hasTextFrame && titleCond s then some 0
    else (firstTitleIdx rest).map (· + 1)

/-! ## find_slide_by_ai response handling (src/app.py lines 321-342) -/

/-- One entry of the conversion service's response, as consumed by
`find_slide_by_ai`. -/
structure SlideData where
  slideIndex : Nat
  text : String
  imageData : String
  deriving DecidableEq, Repr

/-- The outcome of the Match Provider call as seen by the `try` block:
an API error, a non-JSON payload, or a parsed JSON object whose two
keys may each be missing. -/
inductive AIResponse where
  | apiError (msg : String)
  | invalidJson (msg : String)
  | json (bestMatchIndex : Option Int) (justification : Option String)
  deriving DecidableEq, Repr

/-- The dictionary `find_slide_by_ai` returns. -/
structure FindResult where
  slide : Option SlideData
  index : Int
  justification : String
  deriving DecidableEq, Repr

/-- Python list indexing `l[i]`: non-negative indices from the front,
negative indices from the back, `none` models `IndexError`. -/
def pyListGet (l : List SlideData) (i : Int) : Option SlideData :=
  if 0 ≤ i then l.get? i.toNat
  else if 0 ≤ i + l.length then l.get? (i + l.length).toNat
  else none

/-- The result handling of `find_slide_by_ai`: API errors and invalid
JSON are caught and reported with index -1; a missing
`best_match_index` key defaults to -1; otherwise the ternary
`slides_data[best_index] if best_index != -1 and best_index < len(slides_data) else None`
selects the slide data, with an `IndexError` (too-negative index)
falling into the generic exception handler. -/
def findSlideByAI (slidesData : List SlideData) (resp : AIResponse) : FindResult :=
  match resp with
  | .apiError m => ⟨none, -1, "OpenAI API Error: " ++ m⟩
  | .invalidJson m => ⟨none, -1, "AI response was not valid JSON: " ++ m⟩
  | .json bmi just =>
    let bestIndex := bmi.getD (-1)
    let justification := just.getD "No justification provided."
    if bestIndex ≠ -1 ∧ bestIndex < (slidesData.length : Int) then
      match pyListGet slidesData bestIndex with
      | some d => ⟨some d, bestIndex, justification⟩
      | none => ⟨none, -1, "An unexpected error occurred during AI analysis: list index out of range"⟩
    else ⟨none, bestIndex, justification⟩

/-! ## Module-level assembly flow (src/app.py lines 618-711) -/

/-- What a structure step amounts to after the Match Provider calls:
a resolved copy-as-is step carrying the chosen source slide, a
resolved merge step carrying the processed title/body, or an
unresolved step (no candidate, AI failure, or out-of-range template
index), for which the code leaves the template slide as is. -/
inductive StepOutcome where
  | copyResolved (src : Slide)
  | mergeResolved (title body : String)
  | unresolved
  deriving Repr

/-- A step the log counts as resolved. -/
def StepOutcome.isResolved : StepOutcome → Bool
  | .unresolved => false
  | _ => true

/-- Destination presentation state: package image parts plus the slide
sequence. -/
structure PrsState where
  images : List ImagePart
  slides : List Slide
  deriving DecidableEq, Repr

/-- The slide-trimming pass (src/app.py lines 621-626): when the
structure has fewer steps than the merged template has slides, the
trailing slides are dropped; extra steps are instead ignored by the
loop's break. -/
def trimSlides (slides : List Slide) (numSteps : Nat) : List Slide :=
  if numSteps < slides.length then slides.take numSteps else slides

/-- One iteration of the build loop at destination index `i`:
a resolved copy step rewrites the slide in place via
`deep_copy_slide_content` (an exception there propagates to the outer
handler and aborts the assembly); a resolved merge step rewrites the
slide in place via `populate_slide`; an unresolved step leaves the
slide as is. -/
def applyStep (srcPkg : Package) (st : PrsState) (i : Nat) (step : StepOutcome) :
    Except String PrsState :=
  match st.slides.get? i with
  | none => .ok st
  | some dest =>
    match step with
    | .copyResolved src =>
      match deepCopySlideContent srcPkg st.images dest src with
      | .ok (imgs, sl) => .ok ⟨imgs, st.slides.set i sl⟩
      | .error e => .error e
    | .mergeResolved title body =>
      .ok ⟨st.images, st.slides.set i { dest with shapes := (populateSlide dest title body).shapes }⟩
    | .unresolved => .ok st

/-- The build loop (src/app.py lines 630-711): strictly sequential,
breaking as soon as the step index reaches the slide count. -/
def execLoop (srcPkg : Package) : PrsState → Nat → List StepOutcome → Except String PrsState
  | st, _, [] => .ok st
  | st, i, step :: rest =>
    if i < st.slides.length then
      match applyStep srcPkg st i step with
      | .ok st2 => execLoop srcPkg st2 (i + 1) rest
      | .error e => .error e
    else .ok st

/-- The whole execute pass: trim the merged template to the step
count, then run the loop from index 0. -/
def assemble (srcPkg : Package) (st : PrsState) (steps : List StepOutcome) :
    Except String PrsState :=
  execLoop srcPkg ⟨st.images, trimSlides st.slides steps.length⟩ 0 steps

/-! ## Conversion service text extraction (src/conversion_service.py) -/

/-- Per-slide text of `_convert_pptx_to_images_and_text` (lines 51-56):
the text of every text-bearing shape, joined with a space, then
truncated by `[:2000]`.  Python string slicing operates on characters,
modelled on the character list. -/
def pptxSlideText (sl : Slide) : List Char :=
  (String.intercalate " " ((sl.shapes.filter Shape.hasTextFrame).map Shape.text)).toList.take 2000

/-- Per-page text of `_convert_pdf_to_images_and_text` (lines 109-110):
`page.get_text()[:2000]`. -/
def pdfPageText (raw : String) : List Char :=
  raw.toList.take 2000

/-! ## Concrete inputs used by the per-claim theorems -/

/-- Source slide for C1: one opaque (chart-like) shape whose content
embeds the relationship id rId9, which the source slide part does
resolve. -/
def c1SrcSlide : Slide :=
  { shapes := [{ kind := .other ["rId9"] 0 }]
    rels := [⟨"rId9", "chart1"⟩] }

/-- The slide `deep_copy_slide_content` produces for `c1SrcSlide` in a
fresh destination. -/
def c1OutSlide : Slide :=
  { shapes := [{ kind := .other ["rId9"] 0 }], background := none, rels := [] }

/-- Source slide for C2: a single text box containing the single
paragraph "Hello". -/
def c2SrcFrame : TextFrame :=
  { paragraphs := [{ runs := [{ text := "Hello", font := defaultFont }] }] }

/-- The slide for C2 holding one text box with that frame. -/
def c2SrcSlide : Slide :=
  { shapes := [{ kind := .text false c2SrcFrame }] }

/-- The slide `deep_copy_slide_content` produces for `c2SrcSlide`:
the copied text box has gained a leading empty paragraph. -/
def c2OutFrame : TextFrame :=
  { paragraphs := [emptyParagraph, { runs := [{ text := "Hello", font := defaultFont }] }] }

/-- The slide `deep_copy_slide_content` produces for `c2SrcSlide`. -/
def c2OutSlide : Slide :=
  { shapes := [{ kind := .text false c2OutFrame }] }

/-- A shape sitting on the destination slide before a clone. -/
def c3DestShape : Shape :=
  { kind := .text false ({ paragraphs := [{ runs := [{ text := "Keep me", font := defaultFont }] }] }) }

/-- Destination presentation for C3: one slide carrying `c3DestShape`. -/
def c3InitState : PrsState := ⟨[], [{ shapes := [c3DestShape] }]⟩

/-- Template slide for C4. -/
def c4Tpl : Slide := { shapes := [{ kind := .other [] 7 }] }

/-- Shape for C5: a placeholder of type 8, which satisfies both the
title test (type in 1, 2, 8) and the body test (type in 3, 4, 8, 14). -/
def c5Shape : Shape :=
  { top := ptEmu 200, isPlaceholder := true, phType := some 8
    kind := .text false
      ({ paragraphs := [{ runs := [{ text := "Placeholder text", font := defaultFont }] }] }) }

/-- Source slide for C6: a corrupt text-bearing shape followed by a
healthy opaque shape. -/
def c6SrcSlide : Slide :=
  { shapes := [{ kind := .text true ({}) }, { kind := .other [] 3 }] }

/-- Pristine shape for C7: its first run is bold with an explicit
size. -/
def c7Pristine : Shape :=
  { top := 0
    kind := .text false
      ({ paragraphs := [{ runs :=
          [{ text := "Old title", font := { bold := some true, size := some 3200 } }] }] }) }

/-- Conversion-service data for C8: three slides. -/
def c8Data : List SlideData := [⟨0, "a", "i0"⟩, ⟨1, "b", "i1"⟩, ⟨2, "c", "i2"⟩]

/-- First shape for C9: a plain text box in the top band, no
placeholder metadata. -/
def c9Plain : Shape :=
  { top := 0
    kind := .text false ({ paragraphs := [{ runs := [{ text := "Some words", font := defaultFont }] }] }) }

/-- Second shape for C9: an explicit Title placeholder (type 1) lower
on the slide and later in document order. -/
def c9TitlePh : Shape :=
  { top := ptEmu 300, isPlaceholder := true, phType := some 1
    kind := .text false ({ paragraphs := [{ runs := [{ text := "Title here", font := defaultFont }] }] }) }

/-! ## Helper lemmas -/

/-- Unfolding lemma for `otherEmbedded` on a cons cell. -/
theorem otherEmbedded_cons (s : Shape) (l : List Shape) :
    otherEmbedded (s :: l) =
      match shapeOtherIds s with
      | some ids => ids :: otherEmbedded l
      | none => otherEmbedded l := by
  simp only [otherEmbedded, List.filterMap_cons]
  cases shapeOtherIds s <;> rfl

/-- The shape loop copies the embedded relationship ids of opaque
shapes verbatim: the `other` shapes of a successful output carry
exactly the embedded id lists of the source's `other` shapes. -/
theorem deepCopyShapes_otherEmbedded (srcPkg : Package) (srcSlide : Slide) :
    ∀ (shapes : List Shape) (st st2 : CopyState) (out : List Shape),
      deepCopyShapes srcPkg srcSlide shapes st = .ok (st2, out) →
      otherEmbedded out = otherEmbedded shapes := by
  intro shapes
  induction shapes with
  | nil =>
    intro st st2 out h
    simp only [deepCopyShapes, Except.ok.injEq, Prod.mk.injEq] at h
    simp [← h.2]
  | cons s rest ih =>
    intro st st2 out h
    cases hk : s.kind with
    | picture rid =>
      simp only [deepCopyShapes, hk] at h
      cases himg : relatedImage srcPkg srcSlide rid with
      | some img =>
        simp only [himg] at h
        split at h
        case _ st3 out3 hrec =>
          simp only [Except.ok.injEq, Prod.mk.injEq] at h
          obtain ⟨h1, h2⟩ := h
          subst h2
          rw [otherEmbedded_cons, otherEmbedded_cons]
          simp [shapeOtherIds, addPictureShape, hk, ih _ _ _ hrec]
        case _ e hrec => exact absurd h (by simp)
      | none =>
        simp only [himg] at h
        by_cases hph : s.isPlaceholder = true
        · simp only [hph, if_pos] at h
          split at h
          case _ st3 out3 hrec =>
            simp only [Except.ok.injEq, Prod.mk.injEq] at h
            obtain ⟨h1, h2⟩ := h
            subst h2
            rw [otherEmbedded_cons, otherEmbedded_cons]
            simp [shapeOtherIds, hk, ih _ _ _ hrec]
          case _ e hrec => exact absurd h (by simp)
        · simp only [hph] at h
          rw [otherEmbedded_cons]
          simp [shapeOtherIds, hk, ih _ _ _ h]
    | text corrupt tf =>
      simp only [deepCopyShapes, hk] at h
      cases hc : corrupt with
      | true => rw [hc] at h; exact absurd h (by simp)
      | false =>
        rw [hc] at h
        simp only [Bool.false_eq_true, if_false] at h
        split at h
        case _ st3 out3 hrec =>
          simp only [Except.ok.injEq, Prod.mk.injEq] at h
          obtain ⟨h1, h2⟩ := h
          subst h2
          rw [otherEmbedded_cons, otherEmbedded_cons]
          simp [shapeOtherIds, copyTextShape, hk, ih _ _ _ hrec]
        case _ e hrec => exact absurd h (by simp)
    | other ids payload =>
      simp only [deepCopyShapes, hk] at h
      split at h
      case _ st3 out3 hrec =>
        simp only [Except.ok.injEq, Prod.mk.injEq] at h
        obtain ⟨h1, h2⟩ := h
        subst h2
        rw [otherEmbedded_cons, otherEmbedded_cons]
        simp [shapeOtherIds, hk, ih _ _ _ hrec]
      case _ e hrec => exact absurd h (by simp)

/-- A successful shape loop keeps every shape except the pictures the
except-branch drops (unresolvable image, not a placeholder), and it
only fails when some text-bearing shape is corrupt. -/
theorem deepCopyShapes_isolates (srcPkg : Package) (srcSlide : Slide) :
    ∀ (shapes : List Shape) (st : CopyState),
      (∀ s ∈ shapes, textCopyOk s = true) →
      ∃ st2 out, deepCopyShapes srcPkg srcSlide shapes st = .ok (st2, out) ∧
        out.length + shapes.countP (pictureSkipped srcPkg srcSlide) = shapes.length := by
  intro shapes
  induction shapes with
  | nil =>
    intro st _
    exact ⟨st, [], rfl, by simp⟩
  | cons s rest ih =>
    intro st hok
    have hs : textCopyOk s = true := hok s (by simp)
    have hrest : ∀ s2 ∈ rest, textCopyOk s2 = true := fun s2 hs2 => hok s2 (by simp [hs2])
    cases hk : s.kind with
    | picture rid =>
      cases himg : relatedImage srcPkg srcSlide rid with
      | some img =>
        obtain ⟨st2, out, hrec, hlen⟩ :=
          ih ⟨(getOrAddImagePart st.images img.blob img.contentType).1,
              (relateTo st.rels (getOrAddImagePart st.images img.blob img.contentType).2).1⟩ hrest
        refine ⟨st2,
          addPictureShape s (relateTo st.rels (getOrAddImagePart st.images img.blob img.contentType).2).2 :: out,
          ?_, ?_⟩
        · simp [deepCopyShapes, hk, himg, hrec]
        · simp [List.countP_cons, pictureSkipped, hk, himg]
          omega
      | none =>
        by_cases hph : s.isPlaceholder = true
        · obtain ⟨st2, out, hrec, hlen⟩ := ih st hrest
          refine ⟨st2, s :: out, ?_, ?_⟩
          · simp [deepCopyShapes, hk, himg, hph, hrec]
          · simp [List.countP_cons, pictureSkipped, hk, himg, hph]
            omega
        · obtain ⟨st2, out, hrec, hlen⟩ := ih st hrest
          refine ⟨st2, out, ?_, ?_⟩
          · simp [deepCopyShapes, hk, himg, hph, hrec]
          · simp [List.countP_cons, pictureSkipped, hk, himg, hph]
            omega
    | text corrupt tf =>
      have hcor : corrupt = false := by
        simpa [textCopyOk, hk] using hs
      obtain ⟨st2, out, hrec, hlen⟩ := ih st hrest
      refine ⟨st2, copyTextShape s tf :: out, ?_, ?_⟩
      · simp [deepCopyShapes, hk, hcor, hrec]
      · simp [List.countP_cons, pictureSkipped, hk]
        omega
    | other ids payload =>
      obtain ⟨st2, out, hrec, hlen⟩ := ih st hrest
      refine ⟨st2, s :: out, ?_, ?_⟩
      · simp [deepCopyShapes, hk, hrec]
      · simp [List.countP_cons, pictureSkipped, hk]
        omega

/-- A step of the build loop never changes the slide count: every
branch either leaves the slide list alone or replaces one slide in
place with `List.set`. -/
theorem applyStep_length (srcPkg : Package) (st : PrsState) (i : Nat) (step : StepOutcome)
    (out : PrsState) (h : applyStep srcPkg st i step = .ok out) :
    out.slides.length = st.slides.length := by
  unfold applyStep at h
  split at h
  · simp only [Except.ok.injEq] at h
    simp [← h]
  · split at h
    case _ src =>
      split at h
      case _ p hrec =>
        simp only [Except.ok.injEq] at h
        simp [← h]
      case _ e hrec => exact absurd h (by simp)
    case _ title body =>
      simp only [Except.ok.injEq] at h
      simp [← h]
    case _ =>
      simp only [Except.ok.injEq] at h
      simp [← h]

/-- The build loop never changes the slide count. -/
theorem execLoop_length (srcPkg : Package) :
    ∀ (steps : List StepOutcome) (st : PrsState) (i : Nat) (out : PrsState),
      execLoop srcPkg st i steps = .ok out → out.slides.length = st.slides.length := by
  intro steps
  induction steps with
  | nil =>
    intro st i out h
    simp only [execLoop, Except.ok.injEq] at h
    simp [← h]
  | cons step rest ih =>
    intro st i out h
    simp only [execLoop] at h
    split at h
    · split at h
      case _ st2 hstep =>
        have := ih st2 (i + 1) out h
        rw [this, applyStep_length srcPkg st i step st2 hstep]
      case _ e hstep => exact absurd h (by simp)
    · simp only [Except.ok.injEq] at h
      simp [← h]

/-- The trimming pass leaves exactly the minimum of the template slide
count and the step count. -/
theorem trimSlides_length (slides : List Slide) (n : Nat) :
    (trimSlides slides n).length = min slides.length n := by
  unfold trimSlides
  split <;> simp <;> omega

/-- Once the title has been assigned, its index never changes for the
rest of the populate loop. -/
theorem populateGo_titleIdx_some (title body : String) :
    ∀ (shapes : List Shape) (n k : Nat) (b : Option Nat),
      (populateGo title body shapes n (some k) b).titleIdx = some k := by
  intro shapes
  induction shapes with
  | nil => intro n k b; rfl
  | cons s rest ih =>
    intro n k b
    cases hk : s.kind with
    | text corrupt tf =>
      cases b with
      | some k2 => simp [populateGo, hk]
      | none =>
        by_cases hdb : bodyCond s = true
        · simp [populateGo, hk, hdb]
        · simp [populateGo, hk, hdb, ih]
    | picture rid => simp [populateGo, hk, ih]
    | other ids payload => simp [populateGo, hk, ih]

/-- Once the body has been assigned, its index never changes for the
rest of the populate loop. -/
theorem populateGo_bodyIdx_some (title body : String) :
    ∀ (shapes : List Shape) (n k : Nat) (t : Option Nat),
      (populateGo title body shapes n t (some k)).bodyIdx = some k := by
  intro shapes
  induction shapes with
  | nil => intro n k t; rfl
  | cons s rest ih =>
    intro n k t
    cases hk : s.kind with
    | text corrupt tf =>
      cases t with
      | some k2 => simp [populateGo, hk]
      | none =>
        by_cases hdt : titleCond s = true
        · simp [populateGo, hk, hdt]
        · simp [populateGo, hk, hdt, ih]
    | picture rid => simp [populateGo, hk, ih]
    | other ids payload => simp [populateGo, hk, ih]

/-- The title goes to the first text-frame shape in document order
satisfying the title condition (explicit placeholder metadata has no
precedence over an earlier geometric match). -/
theorem populateGo_titleIdx_none (title body : String) :
    ∀ (shapes : List Shape) (n : Nat) (b : Option Nat),
      (populateGo title body shapes n none b).titleIdx =
        (firstTitleIdx shapes).map (fun k => k + n) := by
  intro shapes
  induction shapes with
  | nil => intro n b; rfl
  | cons s rest ih =>
    intro n b
    cases hk : s.kind with
    | text corrupt tf =>
      by_cases hdt : titleCond s = true
      · cases b with
        | some k2 =>
          simp [populateGo, hk, hdt, firstTitleIdx, Shape.hasTextFrame]
        | none =>
          by_cases hdb : bodyCond (s.writeText title) = true
          · simp [populateGo, hk, hdt, hdb, firstTitleIdx, Shape.hasTextFrame]
          · simp [populateGo, hk, hdt, hdb, firstTitleIdx, Shape.hasTextFrame,
              populateGo_titleIdx_some]
      · have hne : (firstTitleIdx rest).map (fun k => k + (n + 1)) =
            ((firstTitleIdx rest).map (fun k => k + 1)).map (fun k => k + n) := by
          cases firstTitleIdx rest with
          | none => simp
          | some k => simp; omega
        simp [populateGo, hk, hdt, firstTitleIdx, Shape.hasTextFrame, ih, hne]
    | picture rid =>
      have hne : (firstTitleIdx rest).map (fun k => k + (n + 1)) =
          ((firstTitleIdx rest).map (fun k => k + 1)).map (fun k => k + n) := by
        cases firstTitleIdx rest with
          | none => simp
          | some k => simp; omega
      simp [populateGo, hk, firstTitleIdx, Shape.hasTextFrame, ih, hne]
    | other ids payload =>
      have hne : (firstTitleIdx rest).map (fun k => k + (n + 1)) =
          ((firstTitleIdx rest).map (fun k => k + 1)).map (fun k => k + n) := by
        cases firstTitleIdx rest with
          | none => simp
          | some k => simp; omega
      simp [populateGo, hk, firstTitleIdx, Shape.hasTextFrame, ih, hne]

/-- Writing a role keeps the shape a text shape. -/
theorem writeText_hasTextFrame (s : Shape) (txt : String) :
    (s.writeText txt).hasTextFrame = s.hasTextFrame := by
  cases hk : s.kind <;> simp [Shape.writeText, hk, Shape.hasTextFrame]

/-- A role write leaves exactly one run — the new text in the
library-default font — regardless of the pristine runs. -/
theorem writeText_allRuns (s : Shape) (txt : String) (h : s.hasTextFrame = true) :
    (s.writeText txt).allRuns = [{ text := txt, font := defaultFont }] := by
  cases hk : s.kind with
  | text corrupt tf =>
    simp [Shape.writeText, hk, writeTextFrame, clearTextFrame, clearParagraph, Shape.allRuns]
  | picture rid => simp [Shape.hasTextFrame, hk] at h
  | other ids payload => simp [Shape.hasTextFrame, hk] at h

/-- Exclusivity invariant of the populate loop: as long as no
remaining shape satisfies both the title condition and (after the
title write) a body condition, and the already-assigned indices are
distinct and below the cursor, the final title and body indices
differ. -/
theorem populateGo_roles_distinct (title body : String) :
    ∀ (shapes : List Shape) (n : Nat) (t b : Option Nat),
      (∀ s ∈ shapes, doubleRole title s = false) →
      (∀ k, t = some k → k < n) →
      (∀ k, b = some k → k < n) →
      (∀ k, t = some k → b ≠ some k) →
      ∀ i, (populateGo title body shapes n t b).titleIdx = some i →
        (populateGo title body shapes n t b).bodyIdx ≠ some i := by
  intro shapes
  induction shapes with
  | nil =>
    intro n t b _ _ _ hne i hi
    simp only [populateGo] at hi ⊢
    exact hne i hi
  | cons s rest ih =>
    intro n t b H ht hb hne i hi
    have Hs : doubleRole title s = false := H s (by simp)
    have Hrest : ∀ s2 ∈ rest, doubleRole title s2 = false := fun s2 h2 => H s2 (by simp [h2])
    cases hk : s.kind with
    | picture rid =>
      simp only [populateGo, hk] at hi ⊢
      exact ih (n + 1) t b Hrest (fun k h2 => Nat.lt_succ_of_lt (ht k h2))
        (fun k h2 => Nat.lt_succ_of_lt (hb k h2)) hne i hi
    | other ids payload =>
      simp only [populateGo, hk] at hi ⊢
      exact ih (n + 1) t b Hrest (fun k h2 => Nat.lt_succ_of_lt (ht k h2))
        (fun k h2 => Nat.lt_succ_of_lt (hb k h2)) hne i hi
    | text corrupt tf =>
      cases t with
      | some kt =>
        cases b with
        | some kb =>
          simp [populateGo, hk] at hi ⊢
          have := hne kt rfl
          simp at this
          omega
        | none =>
          by_cases hdb : bodyCond s = true
          · simp [populateGo, hk, hdb] at hi ⊢
            have := ht kt rfl
            omega
          · simp [populateGo, hk, hdb] at hi ⊢
            exact ih (n + 1) (some kt) none Hrest
              (fun k h2 => by cases h2; exact Nat.lt_succ_of_lt (ht kt rfl))
              (fun k h2 => by cases h2)
              (fun k _ h2 => by cases h2) i hi
      | none =>
        by_cases hdt : titleCond s = true
        · cases b with
          | some kb =>
            simp [populateGo, hk, hdt] at hi ⊢
            have := hb kb rfl
            omega
          | none =>
            by_cases hdb : bodyCond (s.writeText title) = true
            · exact absurd Hs (by simp [doubleRole, hdt, hdb])
            · simp [populateGo, hk, hdt, hdb] at hi ⊢
              exact ih (n + 1) (some n) none Hrest
                (fun k h2 => by cases h2; omega)
                (fun k h2 => by cases h2)
                (fun k _ h2 => by cases h2) i hi
        · cases b with
          | some kb =>
            simp [populateGo, hk, hdt] at hi ⊢
            exact ih (n + 1) none (some kb) Hrest
              (fun k h2 => by cases h2)
              (fun k h2 => by cases h2; exact Nat.lt_succ_of_lt (hb kb rfl))
              (fun k h2 => by cases h2) i hi
          | none =>
            by_cases hdb : bodyCond s = true
            · simp [populateGo, hk, hdt, hdb] at hi ⊢
              exact ih (n + 1) none (some n) Hrest
                (fun k h2 => by cases h2)
                (fun k h2 => by cases h2; omega)
                (fun k h2 => by cases h2) i hi
            · simp [populateGo, hk, hdt, hdb] at hi ⊢
              exact ih (n + 1) none none Hrest
                (fun k h2 => by cases h2)
                (fun k h2 => by cases h2)
                (fun k h2 => by cases h2) i hi

/-- Whenever the populate loop assigns the body role (starting with no
body assigned), the shape at the assigned position ends up holding
exactly one run: the body text in the library-default font. -/
theorem populateGo_bodyWritten (title body : String) :
    ∀ (shapes : List Shape) (n : Nat) (t : Option Nat) (i : Nat),
      (populateGo title body shapes n t none).bodyIdx = some i →
      n ≤ i ∧ ∃ s2, (populateGo title body shapes n t none).shapes.get? (i - n) = some s2 ∧
        s2.allRuns = [{ text := body, font := defaultFont }] := by
  intro shapes
  induction shapes with
  | nil => intro n t i h; simp [populateGo] at h
  | cons s rest ih =>
    intro n t i h
    cases hk : s.kind with
    | picture rid =>
      simp only [populateGo, hk] at h ⊢
      obtain ⟨h1, s2, h2, h3⟩ := ih (n + 1) t i h
      refine ⟨by omega, s2, ?_, h3⟩
      have hs : i - n = (i - (n + 1)) + 1 := by omega
      rw [hs]
      simpa using h2
    | other ids payload =>
      simp only [populateGo, hk] at h ⊢
      obtain ⟨h1, s2, h2, h3⟩ := ih (n + 1) t i h
      refine ⟨by omega, s2, ?_, h3⟩
      have hs : i - n = (i - (n + 1)) + 1 := by omega
      rw [hs]
      simpa using h2
    | text corrupt tf =>
      cases t with
      | some kt =>
        by_cases hdb : bodyCond s = true
        · simp [populateGo, hk, hdb] at h ⊢
          cases h
          refine ⟨Nat.le_refl n, s.writeText body, ?_, ?_⟩
          · simp
          · exact writeText_allRuns s body (by simp [Shape.hasTextFrame, hk])
        · simp [populateGo, hk, hdb] at h ⊢
          obtain ⟨h1, s2, h2, h3⟩ := ih (n + 1) (some kt) i h
          refine ⟨by omega, s2, ?_, h3⟩
          have hs : i - n = (i - (n + 1)) + 1 := by omega
          rw [hs]
          simpa using h2
      | none =>
        by_cases hdt : titleCond s = true
        · by_cases hdb : bodyCond (s.writeText title) = true
          · simp [populateGo, hk, hdt, hdb] at h ⊢
            cases h
            refine ⟨Nat.le_refl n, (s.writeText title).writeText body, ?_, ?_⟩
            · simp
            · exact writeText_allRuns (s.writeText title) body
                (by rw [writeText_hasTextFrame]; simp [Shape.hasTextFrame, hk])
          · simp [populateGo, hk, hdt, hdb] at h ⊢
            obtain ⟨h1, s2, h2, h3⟩ := ih (n + 1) (some n) i h
            refine ⟨by omega, s2, ?_, h3⟩
            have hs : i - n = (i - (n + 1)) + 1 := by omega
            rw [hs]
            simpa using h2
        · by_cases hdb : bodyCond s = true
          · simp [populateGo, hk, hdt, hdb, populateGo_bodyIdx_some] at h ⊢
            cases h
            refine ⟨Nat.le_refl n, s.writeText body, ?_, ?_⟩
            · simp
            · exact writeText_allRuns s body (by simp [Shape.hasTextFrame, hk])
          · simp [populateGo, hk, hdt, hdb] at h ⊢
            obtain ⟨h1, s2, h2, h3⟩ := ih (n + 1) none i h
            refine ⟨by omega, s2, ?_, h3⟩
            have hs : i - n = (i - (n + 1)) + 1 := by omega
            rw [hs]
            simpa using h2

/-! ## Extra concrete inputs for witnesses -/

/-- Frame of the witness title shape for C5. -/
def c5WFrameA : TextFrame :=
  { paragraphs := [{ runs := [{ text := "Heading", font := defaultFont }] }] }

/-- Frame of the witness body shape for C5. -/
def c5WFrameB : TextFrame :=
  { paragraphs := [{ runs := [{ text := "Body goes here", font := defaultFont }] }] }

/-- Witness slide for C5: a pure Title placeholder (type 1) and a pure
Body placeholder (type 3) below the top band — no shape satisfies both
role conditions. -/
def c5WSlide : Slide :=
  { shapes :=
      [{ top := 0, isPlaceholder := true, phType := some 1, kind := .text false c5WFrameA },
       { top := ptEmu 300, isPlaceholder := true, phType := some 3, kind := .text false c5WFrameB }] }

/-- Frame of the witness text shape for C6. -/
def c6WFrame : TextFrame :=
  { paragraphs := [{ runs := [{ text := "fine", font := defaultFont }] }] }

/-- Witness slide for C6: a healthy text shape followed by a picture
whose relationship does not resolve (and which is not a placeholder). -/
def c6WSlide : Slide :=
  { shapes :=
      [{ kind := .text false c6WFrame },
       { kind := .picture "rId1" }] }

/-- Frame of the witness body shape for C7. -/
def c7WFrame : TextFrame :=
  { paragraphs := [{ runs := [{ text := "Pristine body", font := defaultFont }] }] }

/-- Witness shape for C7: a Body placeholder below the top band. -/
def c7WShape : Shape :=
  { top := ptEmu 200, isPlaceholder := true, phType := some 3, kind := .text false c7WFrame }

/-! ## Per-claim theorems -/

/-- Claim C1, counterexample: cloning a slide whose opaque shape embeds
the relationship id rId9 into a fresh destination copies the id
verbatim; the serialized destination references rId9 but its
relationship list is empty, so the reference is dangling — the id was
not remapped to a destination relationship. -/
theorem c1_counterexample :
    deepCopySlideContent ⟨[]⟩ [] {} c1SrcSlide = .ok ([], c1OutSlide) ∧
    c1OutSlide.referencedRelIds = ["rId9"] ∧
    c1OutSlide.resolves "rId9" = false ∧
    c1SrcSlide.referencedRelIds = ["rId9"] :=
  ⟨rfl, rfl, rfl, rfl⟩

/-- Claim C2, evaluation at the failing input: the source slide's only
shape has text "Hello", the clone keeps the shape count but its copied
shape has text with an extra leading newline — the empty paragraph
left behind by `text_frame.clear()` before the source paragraphs are
appended — so the round-tripped text differs from the source text. -/
theorem c2_failing_eval :
    deepCopySlideContent ⟨[]⟩ [] {} c2SrcSlide = .ok ([], c2OutSlide) ∧
    c2SrcSlide.shapes.map Shape.text = ["Hello"] ∧
    c2OutSlide.shapes.map Shape.text = ["\nHello"] ∧
    c2OutSlide.shapes.length = c2SrcSlide.shapes.length :=
  ⟨rfl, rfl, rfl, rfl⟩

/-- Claim C3, counterexample: executing a resolved copy-as-is step
against a destination holding one slide with one shape does not append
a slide — the slide count stays 1 — and the shape previously on the
destination slide is deleted by the clone. -/
theorem c3_counterexample :
    assemble ⟨[]⟩ c3InitState [.copyResolved {}] = .ok ⟨[], [{}]⟩ ∧
    c3InitState.slides.length = 1 ∧
    c3InitState.slides.map Slide.shapes = [[c3DestShape]] ∧
    (⟨[], [{}]⟩ : PrsState).slides.map Slide.shapes = [[]] :=
  ⟨rfl, rfl, rfl, rfl⟩

/-- Claim C4, counterexample: a plan with one template slide and one
Unresolved step leaves the template slide in place, so the destination
ends with 1 slide although the number of Resolved steps is 0. -/
theorem c4_counterexample :
    assemble ⟨[]⟩ ⟨[], [c4Tpl]⟩ [.unresolved] = .ok ⟨[], [c4Tpl]⟩ ∧
    ([StepOutcome.unresolved].countP StepOutcome.isResolved = 0) ∧
    (⟨[], [c4Tpl]⟩ : PrsState).slides.length ≠ [StepOutcome.unresolved].countP StepOutcome.isResolved :=
  ⟨rfl, rfl, by decide⟩

/-- Claim C5, counterexample: a single placeholder shape of type 8
satisfies the title test and, after the title write, also the body
test, so `populate_slide` writes both the title and the body into the
same shape (the body overwriting the title). -/
theorem c5_counterexample :
    (populateSlide { shapes := [c5Shape] } "T" "B").titleIdx = some 0 ∧
    (populateSlide { shapes := [c5Shape] } "T" "B").bodyIdx = some 0 ∧
    (populateSlide { shapes := [c5Shape] } "T" "B").shapes.map Shape.text = ["\nB"] :=
  ⟨rfl, rfl, rfl⟩

/-- Claim C6, counterexample: a slide whose first text-bearing shape is
corrupt makes `deep_copy_slide_content` abort as a whole — the healthy
second shape is never copied — because only the picture branch has an
exception handler. -/
theorem c6_counterexample :
    deepCopySlideContent ⟨[]⟩ [] {} c6SrcSlide = .error "corrupt text shape" ∧
    c6SrcSlide.shapes.length = 2 :=
  ⟨rfl, rfl⟩

/-- Claim C7, counterexample: the pristine shape's first run is bold,
but after `populate_slide` the populated shape's single run carries the
library-default font — no formatting was captured or reapplied. -/
theorem c7_counterexample :
    (populateSlide { shapes := [c7Pristine] } "New" "B").shapes.map Shape.allRuns =
      [[{ text := "New", font := defaultFont }]] ∧
    c7Pristine.allRuns =
      [{ text := "Old title", font := { bold := some true, size := some 3200 } }] ∧
    defaultFont.bold ≠ some true :=
  ⟨rfl, rfl, by decide⟩

/-- Claim C8, counterexample: a malformed Match Provider response with
the out-of-range best index 5 against 3 slides is returned with index 5
(slide `None`), not with index -1 as the claim requires. -/
theorem c8_counterexample :
    findSlideByAI c8Data (.json (some 5) (some "spurious")) = ⟨none, 5, "spurious"⟩ ∧
    (findSlideByAI c8Data (.json (some 5) (some "spurious"))).index ≠ -1 :=
  ⟨rfl, by decide⟩

/-- Claim C9, counterexample: a plain top-band text box earlier in
document order receives the title even though a later shape carries
explicit Title placeholder metadata (type 1) — the explicit metadata
has no priority over the geometric heuristic. -/
theorem c9_counterexample :
    (populateSlide { shapes := [c9Plain, c9TitlePh] } "T" "B").titleIdx = some 0 ∧
    isTitlePlaceholder c9TitlePh = true ∧
    isTitlePlaceholder c9Plain = false :=
  ⟨rfl, rfl, rfl⟩

/-- Claim C10: the per-slide text returned by the conversion service
for a PPTX slide and the per-page text for a PDF page are both
truncated to at most 2000 characters. -/
theorem c10_text_truncated (sl : Slide) (raw : String) :
    (pptxSlideText sl).length ≤ 2000 ∧ (pdfPageText raw).length ≤ 2000 := by
  constructor <;> simp [pptxSlideText, pdfPageText, List.length_take]

/-- Claim C1, amended: relationship ids embedded inside
verbatim-copied opaque shapes are not remapped — every successful
clone carries the source's embedded id lists unchanged into the
destination (pictures and backgrounds do get fresh destination
relationships, but opaque content keeps source ids and may dangle). -/
theorem c1_amended (srcPkg : Package) (destImages : List ImagePart) (dest src : Slide)
    (imgs : List ImagePart) (out : Slide)
    (h : deepCopySlideContent srcPkg destImages dest src = .ok (imgs, out)) :
    otherEmbedded out.shapes = otherEmbedded src.shapes := by
  unfold deepCopySlideContent at h
  split at h
  case _ e heq => exact absurd h (by simp)
  case _ st shapes heq =>
    simp only [Except.ok.injEq, Prod.mk.injEq] at h
    obtain ⟨h1, h2⟩ := h
    rw [← h2]
    exact deepCopyShapes_otherEmbedded srcPkg src src.shapes _ _ _ heq

/-- Witness for the amended C1 at a concrete clone. -/
theorem c1_amended_witness :
    otherEmbedded c1OutSlide.shapes = otherEmbedded c1SrcSlide.shapes :=
  c1_amended ⟨[]⟩ [] {} c1SrcSlide [] c1OutSlide rfl

/-- Claim C3, amended: a resolved copy step does not append a slide —
the destination slide count is unchanged — and the clone first deletes
every shape already on the destination slide: its result does not
depend on the destination slide's previous shapes. -/
theorem c3_amended (srcPkg : Package) (st : PrsState) (i : Nat) (src : Slide) (out : PrsState)
    (h : applyStep srcPkg st i (.copyResolved src) = .ok out) :
    out.slides.length = st.slides.length ∧
    ∀ (destImages : List ImagePart) (dest : Slide),
      deepCopySlideContent srcPkg destImages dest src =
        deepCopySlideContent srcPkg destImages { dest with shapes := [] } src :=
  ⟨applyStep_length srcPkg st i _ out h, fun _ _ => rfl⟩

/-- Witness for the amended C3 at a concrete copy step. -/
theorem c3_amended_witness :
    (⟨[], [{}]⟩ : PrsState).slides.length = c3InitState.slides.length :=
  (c3_amended ⟨[]⟩ c3InitState 0 {} ⟨[], [{}]⟩ rfl).1

/-- Claim C4, amended: for every successful execute pass the
destination slide count equals the minimum of the merged template's
slide count and the number of structure steps — independent of how
many steps are Resolved, because an Unresolved step leaves its
template slide in place. -/
theorem c4_amended (srcPkg : Package) (st : PrsState) (steps : List StepOutcome) (out : PrsState)
    (h : assemble srcPkg st steps = .ok out) :
    out.slides.length = min st.slides.length steps.length := by
  unfold assemble at h
  have h1 := execLoop_length srcPkg steps _ 0 out h
  rw [h1]
  exact trimSlides_length st.slides steps.length

/-- Witness for the amended C4: two template slides, one unresolved
step, one surviving slide. -/
theorem c4_amended_witness :
    (⟨[], [c4Tpl]⟩ : PrsState).slides.length =
      min (⟨[], [c4Tpl, c4Tpl]⟩ : PrsState).slides.length [StepOutcome.unresolved].length :=
  c4_amended ⟨[]⟩ ⟨[], [c4Tpl, c4Tpl]⟩ [.unresolved] ⟨[], [c4Tpl]⟩ rfl

/-- Claim C5, amended: the title and body are written into one and the
same shape exactly when some shape passes both the title test and,
after the title write, a body test (for example a placeholder of
type 8); when no shape does, the two roles always land on distinct
shapes. -/
theorem c5_amended (sl : Slide) (title body : String)
    (H : ∀ s ∈ sl.shapes, doubleRole title s = false) (i : Nat)
    (hi : (populateSlide sl title body).titleIdx = some i) :
    (populateSlide sl title body).bodyIdx ≠ some i :=
  populateGo_roles_distinct title body sl.shapes 0 none none H
    (fun _ h2 => by cases h2) (fun _ h2 => by cases h2) (fun _ h2 => by cases h2) i hi

/-- Witness for the amended C5 on a slide with disjoint Title and Body
placeholders. -/
theorem c5_amended_witness :
    (populateSlide c5WSlide "T" "B").bodyIdx ≠ some 0 :=
  c5_amended c5WSlide "T" "B" (by decide) 0 rfl

/-- Claim C6, amended: only picture failures are isolated — when every
text-bearing shape is readable the clone succeeds, skipping exactly
the non-placeholder pictures whose image cannot be resolved and
keeping a copy of every other shape; a corrupt text-bearing shape
instead aborts the whole clone. -/
theorem c6_amended (srcPkg : Package) (destImages : List ImagePart) (dest src : Slide)
    (h : ∀ s ∈ src.shapes, textCopyOk s = true) :
    ∃ imgs out, deepCopySlideContent srcPkg destImages dest src = .ok (imgs, out) ∧
      out.shapes.length + src.shapes.countP (pictureSkipped srcPkg src) = src.shapes.length := by
  obtain ⟨st2, outShapes, hrec, hlen⟩ :=
    deepCopyShapes_isolates srcPkg src src.shapes ⟨destImages, dest.rels⟩ h
  refine ⟨(copySlideBackground srcPkg src dest.background st2).1.images,
    { shapes := outShapes
      background := (copySlideBackground srcPkg src dest.background st2).2
      rels := (copySlideBackground srcPkg src dest.background st2).1.rels }, ?_, ?_⟩
  · unfold deepCopySlideContent
    rw [hrec]
  · simpa using hlen

/-- Witness for the amended C6: a failing picture is skipped while the
healthy text shape is still cloned. -/
theorem c6_amended_witness :
    ∃ imgs out, deepCopySlideContent ⟨[]⟩ [] {} c6WSlide = .ok (imgs, out) ∧
      out.shapes.length + c6WSlide.shapes.countP (pictureSkipped ⟨[]⟩ c6WSlide) =
        c6WSlide.shapes.length :=
  c6_amended ⟨[]⟩ [] {} c6WSlide (by decide)

/-- Claim C7, amended: for a resolved body role the populated shape
ends up holding exactly one run — the new text in the library-default
font; no formatting is captured from the pristine shape or
reapplied. -/
theorem c7_amended (sl : Slide) (title body : String) (i : Nat)
    (h : (populateSlide sl title body).bodyIdx = some i) :
    ∃ s2, (populateSlide sl title body).shapes.get? i = some s2 ∧
      s2.allRuns = [{ text := body, font := defaultFont }] := by
  obtain ⟨h1, s2, h2, h3⟩ := populateGo_bodyWritten title body sl.shapes 0 none i h
  exact ⟨s2, by simpa using h2, h3⟩

/-- Witness for the amended C7 on a resolved body placeholder. -/
theorem c7_amended_witness :
    ∃ s2, (populateSlide { shapes := [c7WShape] } "T" "B").shapes.get? 0 = some s2 ∧
      s2.allRuns = [{ text := "B", font := defaultFont }] :=
  c7_amended { shapes := [c7WShape] } "T" "B" 0 rfl

/-- Claim C8, amended: API errors, invalid JSON, a missing
best-index key and a too-negative index are all surfaced with
index -1 and never as exceptions, but an out-of-range non-negative
best index is passed through unchanged (with slide None) instead of
being normalised to -1. -/
theorem c8_amended (data : List SlideData) (m j : String) (n : Int) :
    (findSlideByAI data (.apiError m)).index = -1 ∧
    (findSlideByAI data (.apiError m)).slide = none ∧
    (findSlideByAI data (.invalidJson m)).index = -1 ∧
    (findSlideByAI data (.json none (some j))).index = -1 ∧
    ((data.length : Int) ≤ n → findSlideByAI data (.json (some n) (some j)) = ⟨none, n, j⟩) ∧
    (n < -(data.length : Int) → (findSlideByAI data (.json (some n) (some j))).index = -1) := by
  refine ⟨rfl, rfl, rfl, by simp [findSlideByAI], ?_, ?_⟩
  · intro hn
    have hne : ¬(n ≠ -1 ∧ n < (data.length : Int)) := by omega
    simp [findSlideByAI, hne]
  · intro hn
    by_cases h1 : n = -1
    · subst h1
      simp [findSlideByAI]
    · have hcond : n ≠ -1 ∧ n < (data.length : Int) := ⟨h1, by omega⟩
      have hnone : pyListGet data n = none := by
        unfold pyListGet
        have h2 : ¬(0 ≤ n) := by omega
        have h3 : ¬(0 ≤ n + (data.length : Int)) := by omega
        simp [h2, h3]
      simp [findSlideByAI, hcond, hnone]

/-- Witness for the amended C8 at a concrete out-of-range index. -/
theorem c8_amended_witness :
    findSlideByAI c8Data (.json (some 7) (some "j")) = ⟨none, 7, "j"⟩ :=
  (c8_amended c8Data "m" "j" 7).2.2.2.2.1 (by decide)

/-- Claim C9, amended: the Title role goes to the first shape in
document order that has a text frame and satisfies either the explicit
placeholder test or the top-band test — explicit placeholder metadata
receives no priority over an earlier geometric match. -/
theorem c9_amended (sl : Slide) (title body : String) :
    (populateSlide sl title body).titleIdx = firstTitleIdx sl.shapes := by
  have h := populateGo_titleIdx_none title body sl.shapes 0 none
  unfold populateSlide
  rw [h]
  cases firstTitleIdx sl.shapes <;> simp

end Presemulator
